import Mathlib

/-!
Shallow embedding of `src/main.py` from cdd-configdrift-alertonschemaviolation:
a CLI tool that validates a JSON/YAML configuration document against a JSON
Schema. External collaborators (the `json` and `yaml` parsers and the
`jsonschema` engine) are modelled as abstract function parameters collected in
an `Externals` structure; the filesystem is a function from paths to file
results. All control flow (branching on format hints and extensions, the
try/except structure, message construction, exit codes) is translated from the
source.
-/

/-- A parsed JSON/YAML value (the in-memory structured value produced by
`json.load` / `yaml.safe_load`). -/
inductive JValue where
  | null
  | bool (b : Bool)
  | num (n : Int)
  | str (s : String)
  | arr (xs : List JValue)
  | obj (fields : List (String × JValue))

/-- Python truthiness (`bool(v)`) of a parsed value: `None`, `False`, `0`,
`""`, `[]`, and `{}` are falsy; everything else is truthy. Mirrors the
`if not config_data` check at src/main.py line 85. -/
def JValue.truthy : JValue → Bool
  | JValue.null => false
  | JValue.bool b => b
  | JValue.num n => n != 0
  | JValue.str s => s != ""
  | JValue.arr xs => !xs.isEmpty
  | JValue.obj fields => !fields.isEmpty

/-- The Python exception kinds that cross function boundaries in
src/main.py, carrying their `str(e)` message. `main` dispatches on exactly
these types in its except clauses (lines 178-197). -/
inductive PyErr where
  | fileNotFound (msg : String)
  | valueError (msg : String)
  | validationError (msg : String)
  | schemaError (msg : String)
  | exception (msg : String)
deriving DecidableEq

/-- Outcome of `open(path)` followed by reading: the content, a
FileNotFoundError, or some other I/O exception with its message. -/
inductive FileResult where
  | found (content : String)
  | notFound
  | ioError (msg : String)

/-- The filesystem, as seen through `open`. -/
def FS : Type := String → FileResult

/-- Outcome of `jsonschema.validate(instance, schema)`: success, a
ValidationError, a SchemaError, or any other exception (each with the message
`str(e)` of the raised exception). -/
inductive EngineResult where
  | ok
  | validationError (msg : String)
  | schemaError (msg : String)
  | otherError (msg : String)

/-- The external collaborators: `json.loads`, `yaml.safe_load` (each returning
a parsed value or the parse-error message), and the `jsonschema` engine. -/
structure Externals where
  jsonParse : String → Except String JValue
  yamlParse : String → Except String JValue
  engineValidate : JValue → JValue → EngineResult

/-- The format-flag choices of argparse (src/main.py line 34). -/
inductive Fmt where
  | json
  | yaml
deriving DecidableEq

/-- The log-level choices of argparse (src/main.py line 36). -/
inductive LogLevel where
  | DEBUG
  | INFO
  | WARNING
  | ERROR
  | CRITICAL
deriving DecidableEq

/-- Numeric value of a logging level, as in the Python `logging` module. -/
def LogLevel.toNat : LogLevel → Nat
  | LogLevel.DEBUG => 10
  | LogLevel.INFO => 20
  | LogLevel.WARNING => 30
  | LogLevel.ERROR => 40
  | LogLevel.CRITICAL => 50

/-- Python `s.endswith(suffix)`, computed on the character lists. -/
def strEndsWith (s suffix : String) : Bool := suffix.data.isSuffixOf s.data

/-- Python `s.startswith(pre)`, computed on the character lists. -/
def strStartsWith (s pre : String) : Bool := pre.data.isPrefixOf s.data

/-- Python `not s.strip()`: the string is empty or whitespace-only. -/
def isBlank (s : String) : Bool := s.data.all (fun c => c.isWhitespace)

/-- The body of the `with open(...)` block of `load_config`
(src/main.py lines 59-83): choose a parse path from the format hint and the
file extension, falling back to content autodetection. -/
def parse_config (ext : Externals) (config_file : String) (format : Option Fmt)
    (content : String) : Except PyErr JValue :=
  if format = some Fmt.json ∨ (format = none ∧ strEndsWith config_file ".json" = true) then
    match ext.jsonParse content with
    | Except.ok v => Except.ok v
    | Except.error e =>
        Except.error (PyErr.valueError ("Invalid JSON format in " ++ config_file ++ ": " ++ e))
  else if format = some Fmt.yaml ∨
      (format = none ∧ (strEndsWith config_file ".yaml" = true ∨ strEndsWith config_file ".yml" = true)) then
    match ext.yamlParse content with
    | Except.ok v => Except.ok v
    | Except.error e =>
        Except.error (PyErr.valueError ("Invalid YAML format in " ++ config_file ++ ": " ++ e))
  else
    if isBlank content = true then
      Except.error (PyErr.valueError ("Configuration file " ++ config_file ++ " is empty."))
    else
      match ext.jsonParse content with
      | Except.ok v => Except.ok v
      | Except.error _ =>
          match ext.yamlParse content with
          | Except.ok v => Except.ok v
          | Except.error _ =>
              Except.error (PyErr.valueError ("Could not determine format of " ++ config_file ++
                ".  Please specify format using -f/--format."))

/-- `load_config` (src/main.py lines 41-94): open the file, parse by the
chosen path, then reject falsy parsed values; FileNotFoundError is re-raised
with a new message, ValueError is re-raised unchanged, and any other exception
is wrapped into a plain Exception. -/
def load_config (ext : Externals) (fs : FS) (config_file : String) (format : Option Fmt) :
    Except PyErr JValue :=
  match fs config_file with
  | FileResult.notFound =>
      Except.error (PyErr.fileNotFound ("Configuration file not found: " ++ config_file))
  | FileResult.ioError m =>
      Except.error (PyErr.exception ("Error reading configuration file: " ++ m))
  | FileResult.found content =>
      match parse_config ext config_file format content with
      | Except.error e => Except.error e
      | Except.ok config_data =>
          if config_data.truthy then Except.ok config_data
          else
            Except.error (PyErr.valueError ("Configuration file " ++ config_file ++
              " is empty or contains no data."))

/-- `load_schema` (src/main.py lines 98-122): always parse as JSON; the
ValueError raised on a JSON syntax error is caught by the function's own
`except Exception` clause (there is no `except ValueError` re-raise in
`load_schema`) and re-wrapped into a plain Exception with the
"Error reading schema file: " prefix. No emptiness check is applied. -/
def load_schema (ext : Externals) (fs : FS) (schema_file : String) : Except PyErr JValue :=
  match fs schema_file with
  | FileResult.notFound =>
      Except.error (PyErr.fileNotFound ("Schema file not found: " ++ schema_file))
  | FileResult.ioError m =>
      Except.error (PyErr.exception ("Error reading schema file: " ++ m))
  | FileResult.found content =>
      match ext.jsonParse content with
      | Except.ok v => Except.ok v
      | Except.error e =>
          Except.error (PyErr.exception ("Error reading schema file: " ++
            "Invalid JSON format in schema file " ++ schema_file ++ ": " ++ e))

/-- `validate_config` (src/main.py lines 125-148): delegate to the engine;
on success return True; re-raise ValidationError and SchemaError with
prefixed messages; wrap anything else into a plain Exception. -/
def validate_config (ext : Externals) (config_data schema_data : JValue) : Except PyErr Bool :=
  match ext.engineValidate config_data schema_data with
  | EngineResult.ok => Except.ok true
  | EngineResult.validationError e =>
      Except.error (PyErr.validationError ("Configuration validation error: " ++ e))
  | EngineResult.schemaError e =>
      Except.error (PyErr.schemaError ("Invalid schema: " ++ e))
  | EngineResult.otherError e =>
      Except.error (PyErr.exception ("An unexpected error occurred during validation: " ++ e))

/-- The pipeline inside `main`'s try block (src/main.py lines 162-170):
load config, then schema, then validate; the first raised exception
propagates. -/
def run_pipeline (ext : Externals) (fs : FS) (config_file schema_file : String)
    (format : Option Fmt) : Except PyErr Bool :=
  match load_config ext fs config_file format with
  | Except.error e => Except.error e
  | Except.ok config_data =>
      match load_schema ext fs schema_file with
      | Except.error e => Except.error e
      | Except.ok schema_data => validate_config ext config_data schema_data

/-- Observable behavior of one process run: exit code, lines printed to
stdout, logging calls as (level, message) pairs, and the log messages actually
surfaced given the configured level. -/
structure RunResult where
  exitCode : Nat
  stdout : List String
  logged : List (Nat × String)
  surfaced : List String
deriving DecidableEq

/-- Log messages surfaced by the `logging` module: those whose level is at
least the configured threshold. -/
def surfacedOf (threshold : Nat) (logged : List (Nat × String)) : List String :=
  (logged.filter (fun p => threshold ≤ p.1)).map (fun p => p.2)

/-- The except clauses of `main` (src/main.py lines 178-197): the four typed
handlers log `str(e)` and print "Error: " followed by it; the catch-all
Exception handler logs and prints "An unexpected error occurred: " followed
by it. All exit with code 1. -/
def handle_error (threshold : Nat) : PyErr → RunResult
  | PyErr.fileNotFound m =>
      { exitCode := 1, stdout := ["Error: " ++ m], logged := [(40, m)],
        surfaced := surfacedOf threshold [(40, m)] }
  | PyErr.valueError m =>
      { exitCode := 1, stdout := ["Error: " ++ m], logged := [(40, m)],
        surfaced := surfacedOf threshold [(40, m)] }
  | PyErr.validationError m =>
      { exitCode := 1, stdout := ["Error: " ++ m], logged := [(40, m)],
        surfaced := surfacedOf threshold [(40, m)] }
  | PyErr.schemaError m =>
      { exitCode := 1, stdout := ["Error: " ++ m], logged := [(40, m)],
        surfaced := surfacedOf threshold [(40, m)] }
  | PyErr.exception m =>
      { exitCode := 1, stdout := ["An unexpected error occurred: " ++ m],
        logged := [(40, "An unexpected error occurred: " ++ m)],
        surfaced := surfacedOf threshold [(40, "An unexpected error occurred: " ++ m)] }

/-- `main` (src/main.py lines 152-197): set the log threshold from the
log-level argument, run the pipeline, print the success message (exit 0 by
falling off the end), or — in the unreachable branch where `validate_config`
returned False — print the fallback message (also exit 0), or dispatch the
raised exception to the handlers (exit 1). -/
def main_run (ext : Externals) (fs : FS) (config_file schema_file : String)
    (format : Option Fmt) (log_level : LogLevel) : RunResult :=
  let threshold := log_level.toNat
  match run_pipeline ext fs config_file schema_file format with
  | Except.ok b =>
      if b then
        { exitCode := 0, stdout := ["Configuration is valid."],
          logged := [(20, "Configuration is valid.")],
          surfaced := surfacedOf threshold [(20, "Configuration is valid.")] }
      else
        { exitCode := 0,
          stdout := ["Configuration is invalid, but no exception was raised. This is unexpected."],
          logged := [(40, "Configuration is invalid, but no exception was raised. This is unexpected.")],
          surfaced := surfacedOf threshold
            [(40, "Configuration is invalid, but no exception was raised. This is unexpected.")] }
  | Except.error e => handle_error threshold e

/-- A concrete JSON parser instance for running the pipeline on test inputs. -/
def toyJsonParse : String → Except String JValue := fun s =>
  if s = "cfg-json" then Except.ok (JValue.obj [("a", JValue.num 1)])
  else if s = "schema-empty" then Except.ok (JValue.obj [])
  else Except.error "Expecting value: line 1 column 1 (char 0)"

/-- A concrete YAML parser instance: as `yaml.safe_load` does, it returns
null on whitespace-only input. -/
def toyYamlParse : String → Except String JValue := fun s =>
  if s = "cfg-yaml" then Except.ok (JValue.obj [("a", JValue.num 1)])
  else if isBlank s = true then Except.ok JValue.null
  else Except.error "could not determine a constructor"

/-- An engine that accepts every document. -/
def toyEngineOk : JValue → JValue → EngineResult := fun _ _ => EngineResult.ok

/-- An engine that reports one violation. -/
def toyEngineViol : JValue → JValue → EngineResult := fun _ _ =>
  EngineResult.validationError "required property missing: a"

/-- Externals with the accepting engine. -/
def extOk : Externals := ⟨toyJsonParse, toyYamlParse, toyEngineOk⟩

/-- Externals with the rejecting engine. -/
def extViol : Externals := ⟨toyJsonParse, toyYamlParse, toyEngineViol⟩

/-- Filesystem with a valid config and schema. -/
def fsGood : FS := fun p =>
  if p = "c.json" then FileResult.found "cfg-json"
  else if p = "s.json" then FileResult.found "schema-empty"
  else FileResult.notFound

/-- Filesystem with no files. -/
def fsMissing : FS := fun _ => FileResult.notFound

/-- Filesystem where reading the config raises a non-FileNotFound I/O error. -/
def fsIoErr : FS := fun p =>
  if p = "c.json" then FileResult.ioError "read failed" else FileResult.notFound

/-- Filesystem with a zero-byte config named with a .json extension. -/
def fsEmptyJson : FS := fun p =>
  if p = "c.json" then FileResult.found ""
  else if p = "s.json" then FileResult.found "schema-empty"
  else FileResult.notFound

/-- Filesystem with a zero-byte config named with a .yaml extension. -/
def fsEmptyYaml : FS := fun p =>
  if p = "c.yaml" then FileResult.found ""
  else if p = "s.json" then FileResult.found "schema-empty"
  else FileResult.notFound

/-- Two strings with different first characters are different. -/
theorem ne_of_data_head (s t : String) (h : s.data.head? ≠ t.data.head?) : s ≠ t :=
  fun he => h (by rw [he])

/-- Singleton lists over different strings are different. -/
theorem singleton_ne_of_ne {s t : String} (h : s ≠ t) : ([s] : List String) ≠ [t] := by
  intro he
  injection he with h1 _
  exact h h1

/-- A handled-error stdout line never equals the fallback branch message. -/
theorem error_msg_ne_fallback (m : String) :
    "Error: " ++ m ≠
      "Configuration is invalid, but no exception was raised. This is unexpected." := by
  apply ne_of_data_head
  rw [String.data_append]
  show some (Char.ofNat 69) ≠ some (Char.ofNat 67)
  decide

/-- A catch-all stdout line never equals the fallback branch message. -/
theorem unexpected_msg_ne_fallback (m : String) :
    "An unexpected error occurred: " ++ m ≠
      "Configuration is invalid, but no exception was raised. This is unexpected." := by
  apply ne_of_data_head
  rw [String.data_append]
  show some (Char.ofNat 65) ≠ some (Char.ofNat 67)
  decide

/-- C1: for every run, if the config document loads, the schema loads, and the
validation engine reports conformance, the process prints "Configuration is
valid." to stdout and terminates with exit code 0; for every run in which a
step fails (raises), the process terminates with exit code 1. -/
theorem main_exit_code_contract (ext : Externals) (fs : FS) (cf sf : String)
    (fmt : Option Fmt) (ll : LogLevel) :
    (∀ c s, load_config ext fs cf fmt = Except.ok c →
        load_schema ext fs sf = Except.ok s →
        ext.engineValidate c s = EngineResult.ok →
        (main_run ext fs cf sf fmt ll).stdout = ["Configuration is valid."] ∧
        (main_run ext fs cf sf fmt ll).exitCode = 0) ∧
    (∀ e, run_pipeline ext fs cf sf fmt = Except.error e →
        (main_run ext fs cf sf fmt ll).exitCode = 1) := by
  constructor
  · intro c s hc hs he
    have hp : run_pipeline ext fs cf sf fmt = Except.ok true := by
      simp [run_pipeline, hc, hs, validate_config, he]
    constructor <;> simp [main_run, hp]
  · intro e he
    have hm : main_run ext fs cf sf fmt ll = handle_error ll.toNat e := by
      simp [main_run, he]
    rw [hm]
    cases e <;> simp [handle_error]

/-- Witness for C1: a concrete conforming run exits 0 with the success
message, and a concrete run with a missing config file exits 1. -/
theorem main_exit_code_contract_witness :
    ((main_run extOk fsGood "c.json" "s.json" none LogLevel.INFO).stdout =
        ["Configuration is valid."] ∧
      (main_run extOk fsGood "c.json" "s.json" none LogLevel.INFO).exitCode = 0) ∧
    (main_run extOk fsMissing "c.json" "s.json" none LogLevel.INFO).exitCode = 1 := by
  constructor
  · exact (main_exit_code_contract extOk fsGood "c.json" "s.json" none LogLevel.INFO).1
      (JValue.obj [("a", JValue.num 1)]) (JValue.obj []) (by rfl) (by rfl) (by rfl)
  · exact (main_exit_code_contract extOk fsMissing "c.json" "s.json" none LogLevel.INFO).2
      (PyErr.fileNotFound ("Configuration file not found: " ++ "c.json")) (by rfl)

/-- C9: two runs on the same inputs that differ only in the log-level
selector have the same exit code, the same stdout, and even the same sequence
of logging calls; the level only affects which logged messages are surfaced. -/
theorem log_level_noninterference (ext : Externals) (fs : FS) (cf sf : String)
    (fmt : Option Fmt) (l1 l2 : LogLevel) :
    (main_run ext fs cf sf fmt l1).exitCode = (main_run ext fs cf sf fmt l2).exitCode ∧
    (main_run ext fs cf sf fmt l1).stdout = (main_run ext fs cf sf fmt l2).stdout ∧
    (main_run ext fs cf sf fmt l1).logged = (main_run ext fs cf sf fmt l2).logged := by
  unfold main_run
  cases hr : run_pipeline ext fs cf sf fmt with
  | ok b => cases b <;> simp
  | error e => cases e <;> simp [handle_error]

/-- C3 counterexample: on an engine violation, the ValidationError raised by
validate_config carries the engine message with the prefix
"Configuration validation error: " prepended, so it is not the engine's
message verbatim. -/
theorem violation_message_counterexample :
    validate_config extViol (JValue.obj [("a", JValue.num 1)]) (JValue.obj []) =
      Except.error (PyErr.validationError
        ("Configuration validation error: " ++ "required property missing: a")) ∧
    "Configuration validation error: " ++ "required property missing: a" ≠
      "required property missing: a" := by
  constructor
  · rfl
  · decide

/-- C3 (amended): when the engine reports a violation with message e, the
Validator fails with a ValidationError whose message is exactly
"Configuration validation error: " followed by e (the engine message is kept
intact but prefixed, not verbatim). -/
theorem violation_message_prefixed (ext : Externals) (c s : JValue) (e : String)
    (h : ext.engineValidate c s = EngineResult.validationError e) :
    validate_config ext c s =
      Except.error (PyErr.validationError ("Configuration validation error: " ++ e)) := by
  unfold validate_config
  rw [h]

/-- Witness for the amended C3 at a concrete engine violation. -/
theorem violation_message_prefixed_witness :
    validate_config extViol JValue.null JValue.null =
      Except.error (PyErr.validationError
        ("Configuration validation error: " ++ "required property missing: a")) :=
  violation_message_prefixed extViol JValue.null JValue.null
    "required property missing: a" (by rfl)

/-- C2 counterexample: on a wrapped I/O error (a failure kind the claim
covers), the stdout line is "An unexpected error occurred: ..." and does not
have the form "Error: <message>". -/
theorem stdout_error_form_counterexample :
    (main_run extOk fsIoErr "c.json" "s.json" none LogLevel.INFO).stdout =
      ["An unexpected error occurred: Error reading configuration file: read failed"] ∧
    strStartsWith "An unexpected error occurred: Error reading configuration file: read failed"
      "Error: " = false := by
  constructor
  · rfl
  · decide

/-- C2 (amended): every failure exits with code 1; failures raised as
FileNotFoundError, ValueError, ValidationError, or SchemaError print
"Error: <message>" on stdout and log <message> at ERROR level; failures raised
as a plain Exception (wrapped I/O errors, engine errors, and JSON syntax
errors in the schema file, which load_schema re-wraps into a plain Exception)
print and log "An unexpected error occurred: <message>" instead. -/
theorem failure_message_forms (ext : Externals) (fs : FS) (cf sf : String)
    (fmt : Option Fmt) (ll : LogLevel) (e : PyErr)
    (h : run_pipeline ext fs cf sf fmt = Except.error e) :
    (main_run ext fs cf sf fmt ll).exitCode = 1 ∧
    (∀ m, (e = PyErr.fileNotFound m ∨ e = PyErr.valueError m ∨
        e = PyErr.validationError m ∨ e = PyErr.schemaError m) →
      (main_run ext fs cf sf fmt ll).stdout = ["Error: " ++ m] ∧
      (main_run ext fs cf sf fmt ll).logged = [(40, m)]) ∧
    (∀ m, e = PyErr.exception m →
      (main_run ext fs cf sf fmt ll).stdout = ["An unexpected error occurred: " ++ m] ∧
      (main_run ext fs cf sf fmt ll).logged =
        [(40, "An unexpected error occurred: " ++ m)]) ∧
    (∀ content pe, fs sf = FileResult.found content →
        ext.jsonParse content = Except.error pe →
        load_schema ext fs sf = Except.error (PyErr.exception
          ("Error reading schema file: " ++ "Invalid JSON format in schema file " ++
            sf ++ ": " ++ pe))) := by
  have hm : main_run ext fs cf sf fmt ll = handle_error ll.toNat e := by
    simp [main_run, h]
  refine ⟨?_, ?_, ?_, ?_⟩
  · rw [hm]
    cases e <;> simp [handle_error]
  · intro m hd
    rcases hd with h1 | h1 | h1 | h1 <;> subst h1 <;> rw [hm] <;>
      exact ⟨rfl, rfl⟩
  · intro m h1
    subst h1
    rw [hm]
    exact ⟨rfl, rfl⟩
  · intro content pe hf hp
    simp [load_schema, hf, hp]

/-- Witness for the amended C2: a concrete missing-config run prints the
"Error: "-prefixed message and logs the bare message. -/
theorem failure_message_forms_witness :
    (main_run extOk fsMissing "c.json" "s.json" none LogLevel.INFO).stdout =
      ["Error: " ++ "Configuration file not found: c.json"] ∧
    (main_run extOk fsMissing "c.json" "s.json" none LogLevel.INFO).logged =
      [(40, "Configuration file not found: c.json")] :=
  (failure_message_forms extOk fsMissing "c.json" "s.json" none LogLevel.INFO
      (PyErr.fileNotFound "Configuration file not found: c.json") (by rfl)).2.1
    "Configuration file not found: c.json" (Or.inl rfl)

/-- C10: validate_config never returns False — whenever it returns it returns
True — and consequently the Orchestrator's fallback branch message
"Configuration is invalid, but no exception was raised. This is unexpected."
is never printed on any input. -/
theorem fallback_branch_unreachable :
    (∀ (ext : Externals) (c s : JValue) (b : Bool),
        validate_config ext c s = Except.ok b → b = true) ∧
    (∀ (ext : Externals) (fs : FS) (cf sf : String) (fmt : Option Fmt) (ll : LogLevel),
        (main_run ext fs cf sf fmt ll).stdout ≠
          ["Configuration is invalid, but no exception was raised. This is unexpected."]) := by
  have hv : ∀ (ext : Externals) (c s : JValue) (b : Bool),
      validate_config ext c s = Except.ok b → b = true := by
    intro ext c s b h
    unfold validate_config at h
    cases he : ext.engineValidate c s <;> rw [he] at h <;>
      simp_all
  refine ⟨hv, ?_⟩
  intro ext fs cf sf fmt ll
  unfold main_run
  cases hr : run_pipeline ext fs cf sf fmt with
  | ok b =>
    have hb : b = true := by
      unfold run_pipeline at hr
      cases hc : load_config ext fs cf fmt <;> rw [hc] at hr
      case error e => exact absurd hr (by simp)
      case ok c =>
        cases hs : load_schema ext fs sf <;> rw [hs] at hr
        case error e2 => exact absurd hr (by simp)
        case ok s => exact hv ext c s b hr
    subst hb
    simp only []
    exact singleton_ne_of_ne (by decide)
  | error e =>
    cases e with
    | fileNotFound m => exact singleton_ne_of_ne (error_msg_ne_fallback m)
    | valueError m => exact singleton_ne_of_ne (error_msg_ne_fallback m)
    | validationError m => exact singleton_ne_of_ne (error_msg_ne_fallback m)
    | schemaError m => exact singleton_ne_of_ne (error_msg_ne_fallback m)
    | exception m => exact singleton_ne_of_ne (unexpected_msg_ne_fallback m)

/-- Witness for C10: hypotheses are satisfiable — a concrete validate_config
call returns True, and a concrete run prints the success message rather than
the fallback message. -/
theorem fallback_branch_unreachable_witness :
    true = true ∧
    (main_run extOk fsGood "c.json" "s.json" none LogLevel.INFO).stdout ≠
      ["Configuration is invalid, but no exception was raised. This is unexpected."] :=
  ⟨fallback_branch_unreachable.1 extOk JValue.null JValue.null true (by rfl),
   fallback_branch_unreachable.2 extOk fsGood "c.json" "s.json" none LogLevel.INFO⟩

/-- parse_config in the deterministic JSON branch (hint json, or no hint and
a .json extension). -/
theorem parse_config_json_branch (ext : Externals) (cf : String) (fmt : Option Fmt)
    (content : String)
    (h : fmt = some Fmt.json ∨ (fmt = none ∧ strEndsWith cf ".json" = true)) :
    parse_config ext cf fmt content =
      match ext.jsonParse content with
      | Except.ok v => Except.ok v
      | Except.error e =>
          Except.error (PyErr.valueError ("Invalid JSON format in " ++ cf ++ ": " ++ e)) := by
  unfold parse_config
  rw [if_pos h]

/-- parse_config in the deterministic YAML branch. -/
theorem parse_config_yaml_branch (ext : Externals) (cf : String) (fmt : Option Fmt)
    (content : String)
    (hnj : ¬(fmt = some Fmt.json ∨ (fmt = none ∧ strEndsWith cf ".json" = true)))
    (hy : fmt = some Fmt.yaml ∨
      (fmt = none ∧ (strEndsWith cf ".yaml" = true ∨ strEndsWith cf ".yml" = true))) :
    parse_config ext cf fmt content =
      match ext.yamlParse content with
      | Except.ok v => Except.ok v
      | Except.error e =>
          Except.error (PyErr.valueError ("Invalid YAML format in " ++ cf ++ ": " ++ e)) := by
  unfold parse_config
  rw [if_neg hnj, if_pos hy]

/-- parse_config in the autodetection branch stops on blank content with the
"is empty." ValueError before any parse attempt. -/
theorem parse_config_blank_auto (ext : Externals) (cf : String) (fmt : Option Fmt)
    (content : String)
    (hnj : ¬(fmt = some Fmt.json ∨ (fmt = none ∧ strEndsWith cf ".json" = true)))
    (hny : ¬(fmt = some Fmt.yaml ∨
      (fmt = none ∧ (strEndsWith cf ".yaml" = true ∨ strEndsWith cf ".yml" = true))))
    (hb : isBlank content = true) :
    parse_config ext cf fmt content =
      Except.error (PyErr.valueError ("Configuration file " ++ cf ++ " is empty.")) := by
  unfold parse_config
  rw [if_neg hnj, if_neg hny, if_pos hb]

/-- A path ending in ".yaml" or ".yml" does not end in ".json". -/
theorem yaml_ext_not_json (cf : String)
    (h : strEndsWith cf ".yaml" = true ∨ strEndsWith cf ".yml" = true) :
    ¬ strEndsWith cf ".json" = true := by
  intro hj
  unfold strEndsWith at h hj
  rw [List.isSuffixOf_iff_suffix] at hj
  rcases h with h | h <;> rw [List.isSuffixOf_iff_suffix] at h
  · exact absurd (List.suffix_of_suffix_length_le h hj (by decide)) (by decide)
  · exact absurd (List.suffix_of_suffix_length_le h hj (by decide)) (by decide)

/-- If the parse step agrees pointwise, load_config agrees. -/
theorem load_config_congr (ext ext2 : Externals) (fs : FS) (cf : String)
    (fmt fmt2 : Option Fmt)
    (h : ∀ content, parse_config ext cf fmt content = parse_config ext2 cf fmt2 content) :
    load_config ext fs cf fmt = load_config ext2 fs cf fmt2 := by
  unfold load_config
  cases fs cf with
  | found content => simp only [h content]
  | notFound => rfl
  | ioError m => rfl

/-- Filesystem whose config named c.json contains YAML-only content. -/
def fsYamlInJson : FS := fun p =>
  if p = "c.json" then FileResult.found "cfg-yaml"
  else if p = "s.json" then FileResult.found "schema-empty"
  else FileResult.notFound

/-- C6: with a .json extension and no hint, a JSON parse failure yields the
invalid-JSON ValueError even when the content is parseable YAML; and in every
deterministic branch (explicit hint, or a .json/.yaml/.yml extension with no
hint) the loader's result depends only on the parser of that one format, so
content autodetection is never attempted there. -/
theorem extension_beats_content (ext ext2 : Externals) (fs : FS) (cf : String) :
    (∀ content e, fs cf = FileResult.found content → strEndsWith cf ".json" = true →
        ext.jsonParse content = Except.error e →
        load_config ext fs cf none = Except.error (PyErr.valueError
          ("Invalid JSON format in " ++ cf ++ ": " ++ e))) ∧
    (ext.jsonParse = ext2.jsonParse →
        (strEndsWith cf ".json" = true →
          load_config ext fs cf none = load_config ext2 fs cf none) ∧
        load_config ext fs cf (some Fmt.json) = load_config ext2 fs cf (some Fmt.json)) ∧
    (ext.yamlParse = ext2.yamlParse →
        ((strEndsWith cf ".yaml" = true ∨ strEndsWith cf ".yml" = true) →
          load_config ext fs cf none = load_config ext2 fs cf none) ∧
        load_config ext fs cf (some Fmt.yaml) = load_config ext2 fs cf (some Fmt.yaml)) := by
  refine ⟨?_, ?_, ?_⟩
  · intro content e hf hext hj
    simp only [load_config, hf]
    rw [parse_config_json_branch ext cf none content (Or.inr ⟨rfl, hext⟩), hj]
  · intro hpj
    constructor
    · intro hext
      exact load_config_congr ext ext2 fs cf none none (fun content => by
        rw [parse_config_json_branch ext cf none content (Or.inr ⟨rfl, hext⟩),
          parse_config_json_branch ext2 cf none content (Or.inr ⟨rfl, hext⟩), hpj])
    · exact load_config_congr ext ext2 fs cf (some Fmt.json) (some Fmt.json) (fun content => by
        rw [parse_config_json_branch ext cf (some Fmt.json) content (Or.inl rfl),
          parse_config_json_branch ext2 cf (some Fmt.json) content (Or.inl rfl), hpj])
  · intro hpy
    constructor
    · intro hext
      have hnj : ¬((none : Option Fmt) = some Fmt.json ∨
          ((none : Option Fmt) = none ∧ strEndsWith cf ".json" = true)) := by
        rintro (h | ⟨-, h⟩)
        · exact Option.noConfusion h
        · exact yaml_ext_not_json cf hext h
      exact load_config_congr ext ext2 fs cf none none (fun content => by
        rw [parse_config_yaml_branch ext cf none content hnj (Or.inr ⟨rfl, hext⟩),
          parse_config_yaml_branch ext2 cf none content hnj (Or.inr ⟨rfl, hext⟩), hpy])
    · have hnj : ¬((some Fmt.yaml : Option Fmt) = some Fmt.json ∨
          ((some Fmt.yaml : Option Fmt) = none ∧ strEndsWith cf ".json" = true)) := by
        rintro (h | ⟨h, -⟩) <;> exact absurd h (by decide)
      exact load_config_congr ext ext2 fs cf (some Fmt.yaml) (some Fmt.yaml) (fun content => by
        rw [parse_config_yaml_branch ext cf (some Fmt.yaml) content hnj (Or.inl rfl),
          parse_config_yaml_branch ext2 cf (some Fmt.yaml) content hnj (Or.inl rfl), hpy])

/-- Witness for C6: a c.json file holding YAML content fails as invalid JSON,
and the deterministic branches agree across externals sharing one parser. -/
theorem extension_beats_content_witness :
    load_config extOk fsYamlInJson "c.json" none = Except.error (PyErr.valueError
      ("Invalid JSON format in " ++ "c.json" ++ ": " ++
        "Expecting value: line 1 column 1 (char 0)")) ∧
    load_config extOk fsYamlInJson "c.json" none =
      load_config extViol fsYamlInJson "c.json" none ∧
    load_config extOk fsYamlInJson "c.json" (some Fmt.yaml) =
      load_config extViol fsYamlInJson "c.json" (some Fmt.yaml) :=
  ⟨(extension_beats_content extOk extViol fsYamlInJson "c.json").1 "cfg-yaml"
      "Expecting value: line 1 column 1 (char 0)" (by rfl) (by decide) (by rfl),
   ((extension_beats_content extOk extViol fsYamlInJson "c.json").2.1 rfl).1 (by decide),
   ((extension_beats_content extOk extViol fsYamlInJson "c.json").2.2 rfl).2⟩

/-- C7: load_schema depends only on the JSON parser (no YAML, no
autodetection), returns any successfully parsed value without an emptiness
check (so the empty-object schema is accepted), and the loaded documents are
exactly what the pipeline hands to the Validator. -/
theorem schema_loader_json_only (ext ext2 : Externals) (fs : FS) (cf sf : String)
    (fmt : Option Fmt) :
    (ext.jsonParse = ext2.jsonParse → load_schema ext fs sf = load_schema ext2 fs sf) ∧
    (∀ content v, fs sf = FileResult.found content → ext.jsonParse content = Except.ok v →
        load_schema ext fs sf = Except.ok v) ∧
    (∀ c s, load_config ext fs cf fmt = Except.ok c → load_schema ext fs sf = Except.ok s →
        run_pipeline ext fs cf sf fmt = validate_config ext c s) := by
  refine ⟨?_, ?_, ?_⟩
  · intro hpj
    unfold load_schema
    cases fs sf with
    | found content => rw [hpj]
    | notFound => rfl
    | ioError m => rfl
  · intro content v hf hp
    simp [load_schema, hf, hp]
  · intro c s hc hs
    simp [run_pipeline, hc, hs]

/-- Witness for C7: the empty-object schema (a falsy value) is accepted and
is what the pipeline passes to the Validator. -/
theorem schema_loader_json_only_witness :
    load_schema extOk fsGood "s.json" = Except.ok (JValue.obj []) ∧
    run_pipeline extOk fsGood "c.json" "s.json" none =
      validate_config extOk (JValue.obj [("a", JValue.num 1)]) (JValue.obj []) :=
  ⟨(schema_loader_json_only extOk extViol fsGood "c.json" "s.json" none).2.1 "schema-empty"
      (JValue.obj []) (by rfl) (by rfl),
   (schema_loader_json_only extOk extViol fsGood "c.json" "s.json" none).2.2
      (JValue.obj [("a", JValue.num 1)]) (JValue.obj []) (by rfl) (by rfl)⟩

/-- C8: on a path ending in .json, loading with the explicit json hint equals
loading with no hint, and therefore the entire run (exit code, stdout, logs)
is identical. -/
theorem json_hint_idempotent (ext : Externals) (fs : FS) (cf sf : String) (ll : LogLevel)
    (h : strEndsWith cf ".json" = true) :
    load_config ext fs cf (some Fmt.json) = load_config ext fs cf none ∧
    main_run ext fs cf sf (some Fmt.json) ll = main_run ext fs cf sf none ll := by
  have hl : load_config ext fs cf (some Fmt.json) = load_config ext fs cf none :=
    load_config_congr ext ext fs cf (some Fmt.json) none (fun content => by
      rw [parse_config_json_branch ext cf (some Fmt.json) content (Or.inl rfl),
        parse_config_json_branch ext cf none content (Or.inr ⟨rfl, h⟩)])
  refine ⟨hl, ?_⟩
  unfold main_run run_pipeline
  rw [hl]

/-- Witness for C8 on a concrete .json run. -/
theorem json_hint_idempotent_witness :
    main_run extOk fsGood "c.json" "s.json" (some Fmt.json) LogLevel.INFO =
      main_run extOk fsGood "c.json" "s.json" none LogLevel.INFO :=
  (json_hint_idempotent extOk fsGood "c.json" "s.json" LogLevel.INFO (by decide)).2

/-- C4 counterexample: a zero-byte config file named c.json exits 1 but
prints the invalid-JSON message, not "Error: Configuration file c.json is
empty." as the claim states for every extension. -/
theorem empty_file_message_counterexample :
    (main_run extOk fsEmptyJson "c.json" "s.json" none LogLevel.INFO).exitCode = 1 ∧
    (main_run extOk fsEmptyJson "c.json" "s.json" none LogLevel.INFO).stdout =
      ["Error: Invalid JSON format in c.json: Expecting value: line 1 column 1 (char 0)"] ∧
    (["Error: Invalid JSON format in c.json: Expecting value: line 1 column 1 (char 0)"] :
        List String) ≠
      ["Error: Configuration file c.json is empty."] := by
  refine ⟨by rfl, by rfl, by decide⟩

/-- C4 (amended): an empty (zero-byte or whitespace-only) config file always
fails during load — before the Validator — with exit code 1 and a ValueError
printed as "Error: <message>", but the message text depends on the parse
path: invalid-JSON for a .json extension, invalid-YAML or "empty or contains
no data" for a YAML path, and "is empty." only in the autodetection branch.
The theorem assumes what CPython's parsers do on blank input: json fails, and
any parser success yields a falsy value. -/
theorem empty_file_always_fails (ext : Externals) (fs : FS) (cf sf : String)
    (fmt : Option Fmt) (ll : LogLevel) (content : String)
    (hf : fs cf = FileResult.found content)
    (hws : isBlank content = true)
    (hj : ∀ v, ext.jsonParse content = Except.ok v → v.truthy = false)
    (hy : ∀ v, ext.yamlParse content = Except.ok v → v.truthy = false) :
    (∃ m, load_config ext fs cf fmt = Except.error (PyErr.valueError m)) ∧
    (main_run ext fs cf sf fmt ll).exitCode = 1 ∧
    (∃ m, (main_run ext fs cf sf fmt ll).stdout = ["Error: " ++ m]) := by
  have hload : ∃ m, load_config ext fs cf fmt = Except.error (PyErr.valueError m) := by
    have hparse : (∃ m, parse_config ext cf fmt content =
          Except.error (PyErr.valueError m)) ∨
        (∃ v, parse_config ext cf fmt content = Except.ok v ∧ v.truthy = false) := by
      by_cases h1 : fmt = some Fmt.json ∨ (fmt = none ∧ strEndsWith cf ".json" = true)
      · rw [parse_config_json_branch ext cf fmt content h1]
        cases hp : ext.jsonParse content with
        | ok v => exact Or.inr ⟨v, rfl, hj v hp⟩
        | error e => exact Or.inl ⟨_, rfl⟩
      · by_cases h2 : fmt = some Fmt.yaml ∨
            (fmt = none ∧ (strEndsWith cf ".yaml" = true ∨ strEndsWith cf ".yml" = true))
        · rw [parse_config_yaml_branch ext cf fmt content h1 h2]
          cases hp : ext.yamlParse content with
          | ok v => exact Or.inr ⟨v, rfl, hy v hp⟩
          | error e => exact Or.inl ⟨_, rfl⟩
        · rw [parse_config_blank_auto ext cf fmt content h1 h2 hws]
          exact Or.inl ⟨_, rfl⟩
    rcases hparse with ⟨m, hp⟩ | ⟨v, hp, hv⟩
    · exact ⟨m, by simp [load_config, hf, hp]⟩
    · exact ⟨"Configuration file " ++ cf ++ " is empty or contains no data.",
        by simp [load_config, hf, hp, hv]⟩
  rcases hload with ⟨m, hl⟩
  have hpipe : run_pipeline ext fs cf sf fmt = Except.error (PyErr.valueError m) := by
    simp [run_pipeline, hl]
  refine ⟨⟨m, hl⟩, ?_, ⟨m, ?_⟩⟩
  · simp [main_run, hpipe, handle_error]
  · simp [main_run, hpipe, handle_error]

/-- Witness for the amended C4 on a concrete zero-byte .yaml config. -/
theorem empty_file_always_fails_witness :
    (∃ m, load_config extOk fsEmptyYaml "c.yaml" none =
      Except.error (PyErr.valueError m)) ∧
    (main_run extOk fsEmptyYaml "c.yaml" "s.json" none LogLevel.INFO).exitCode = 1 ∧
    (∃ m, (main_run extOk fsEmptyYaml "c.yaml" "s.json" none LogLevel.INFO).stdout =
      ["Error: " ++ m]) :=
  empty_file_always_fails extOk fsEmptyYaml "c.yaml" "s.json" none LogLevel.INFO ""
    (by rfl) (by rfl)
    (fun v h => by
      rw [show extOk.jsonParse "" =
          Except.error "Expecting value: line 1 column 1 (char 0)" from rfl] at h
      exact Except.noConfusion h)
    (fun v h => by
      rw [show extOk.yamlParse "" = Except.ok JValue.null from rfl] at h
      injection h with h2
      rw [← h2]
      rfl)

/-- C5: every value the Document Loader successfully returns is truthy, and
whenever a parse path yields a falsy-empty value the loader fails with the
"empty or contains no data" ValueError instead of returning it. -/
theorem loader_returns_truthy (ext : Externals) (fs : FS) (cf : String) (fmt : Option Fmt) :
    (∀ v, load_config ext fs cf fmt = Except.ok v → v.truthy = true) ∧
    (∀ content v, fs cf = FileResult.found content →
        parse_config ext cf fmt content = Except.ok v → v.truthy = false →
        load_config ext fs cf fmt = Except.error (PyErr.valueError
          ("Configuration file " ++ cf ++ " is empty or contains no data."))) := by
  constructor
  · intro v hv
    unfold load_config at hv
    cases hfs : fs cf <;> simp only [hfs] at hv
    case notFound => exact absurd hv (by simp)
    case ioError m => exact absurd hv (by simp)
    case found content =>
      cases hp : parse_config ext cf fmt content <;> simp only [hp] at hv
      case error e => exact absurd hv (by simp)
      case ok w =>
        by_cases hw : w.truthy = true
        · rw [if_pos hw] at hv
          injection hv with h2
          rw [← h2]
          exact hw
        · rw [if_neg hw] at hv
          exact absurd hv (by simp)
  · intro content v hf hp hv
    simp [load_config, hf, hp, hv]

/-- Witness for C5: a concrete successful load is truthy, and a parse path
returning null makes the loader fail with the EmptyDocument error. -/
theorem loader_returns_truthy_witness :
    (JValue.obj [("a", JValue.num 1)]).truthy = true ∧
    load_config extOk fsEmptyYaml "c.yaml" none = Except.error (PyErr.valueError
      ("Configuration file " ++ "c.yaml" ++ " is empty or contains no data.")) :=
  ⟨(loader_returns_truthy extOk fsGood "c.json" none).1
      (JValue.obj [("a", JValue.num 1)]) (by rfl),
   (loader_returns_truthy extOk fsEmptyYaml "c.yaml" none).2 "" JValue.null
      (by rfl) (by rfl) (by rfl)⟩
